import Mathlib

/-!
Verification of the Task Queue and Scheduler of vid-kit-simple
(src-tauri/src/state/task_manager/mod.rs), shallowly embedded in Lean.

The scheduler state (the fields of the Rust TaskManager that the claims
are about) is a record of the task list, the queue of task ids, the
concurrency limit and the queue-pause flag.  Every public operation of
TaskManager is translated as a pure function from the state (plus the
nondeterministic inputs of the Rust code: the generated uuid, the current
timestamp, and whether persisting to the store succeeds) to the new state
together with the returned TaskResult.  Event emission and the tokio
spawn are not part of the stored state; the engine-completion callback of
start_task is modelled as the separate finish functions below, exactly as
the spawned closure in the source performs it.  The f32 progress field is
modelled as a rational number: the scheduler only ever assigns constants
to it and never computes with it.
-/

namespace VidKit

/-- Status of a task (enum TaskStatus in mod.rs). -/
inductive TaskStatus
  | Pending
  | Running
  | Paused
  | Completed
  | Failed
  | Canceled
deriving DecidableEq

/-- A processing task (struct Task in mod.rs).  The HashMap config is
modelled as an association list; the scheduler never inspects it. -/
structure Task where
  id : String
  input_path : String
  output_path : String
  status : TaskStatus
  progress : Rat
  error : Option String
  attempts : Nat
  created_at : String
  started_at : Option String
  completed_at : Option String
  task_type : String
  config : List (String × String)
deriving DecidableEq

/-- Errors of the task manager (enum TaskError in errors.rs). -/
inductive TaskError
  | TaskNotFound (id : String)
  | InvalidStatus (msg : String)
  | ProcessingFailed (msg : String)
  | UnsupportedTaskType (t : String)
  | StoreSaveError (msg : String)
  | StoreLoadError (msg : String)
  | Canceled
  | Other (msg : String)
deriving DecidableEq

deriving instance DecidableEq for Except

/-- The scheduler state: the RwLock-guarded fields of TaskManager.
The semaphore, condvar and TaskProcessor handle do not enter any claim:
the semaphore only gates the spawned engine work, never the status
fields. -/
structure TaskManagerState where
  tasks : List Task
  queue : List String
  max_concurrent_tasks : Nat
  is_queue_paused : Bool
deriving DecidableEq

/-- TaskManager::new. -/
def new_task_manager (max : Nat) : TaskManagerState :=
  { tasks := [], queue := [], max_concurrent_tasks := max, is_queue_paused := false }

/-- TaskManager::get_task: first task in the list with the given id. -/
def get_task (tasks : List Task) (task_id : String) : Option Task :=
  tasks.find? (fun t => t.id == task_id)

/-- TaskManager::update_task: apply update_fn to the first task with the
given id; none when the id is unknown (the TaskNotFound branch). -/
def update_task (update_fn : Task → Task) (task_id : String) :
    List Task → Option (List Task)
  | [] => none
  | t :: ts =>
    if t.id == task_id then some (update_fn t :: ts)
    else (update_task update_fn task_id ts).map (fun ts2 => t :: ts2)

/-- Count of tasks whose status is Running (the running_count computation
repeated in process_next_tasks and retry_task). -/
def running_count (tasks : List Task) : Nat :=
  (tasks.filter (fun t => t.status == TaskStatus.Running)).length

/-- VecDeque removal of the first occurrence of an id, as cancel_task
does with position plus remove. -/
def remove_first (x : String) : List String → List String
  | [] => []
  | y :: ys => if y == x then ys else y :: remove_first x ys

/-! Named update closures of the transition methods (the Rust closures
passed to update_task by start, pause, resume, cancel and retry). -/

/-- The closure of start_task: set Running, stamp started_at, bump attempts. -/
def start_update (now : String) (t : Task) : Task :=
  { t with status := TaskStatus.Running, started_at := some now, attempts := t.attempts + 1 }

/-- The closure of pause_task. -/
def pause_update (t : Task) : Task := { t with status := TaskStatus.Paused }

/-- The closure of resume_task. -/
def resume_update (t : Task) : Task := { t with status := TaskStatus.Running }

/-- The closure of cancel_task. -/
def cancel_update (now : String) (t : Task) : Task :=
  { t with status := TaskStatus.Canceled, completed_at := some now }

/-- The closure of retry_task. -/
def retry_update (t : Task) : Task :=
  { t with status := TaskStatus.Pending, progress := 0, error := none, completed_at := none }

/-- TaskManager::create_task.  The uuid and the creation timestamp are
inputs; the task is appended to the list and its id to the queue tail. -/
def create_task (s : TaskManagerState) (task_id input_path output_path task_type : String)
    (config : List (String × String)) (now : String) : TaskManagerState × String :=
  let t : Task :=
    { id := task_id, input_path := input_path, output_path := output_path,
      status := TaskStatus.Pending, progress := 0, error := none, attempts := 0,
      created_at := now, started_at := none, completed_at := none,
      task_type := task_type, config := config }
  ({ s with tasks := s.tasks ++ [t], queue := s.queue ++ [task_id] }, task_id)

/-- TaskManager::start_task (synchronous part).  Guard: status must be
Pending, else InvalidStatus without mutation.  On success the task is set
Running with started_at and attempts incremented, then save_state runs;
a failing save returns StoreSaveError but keeps the mutation.  The
spawned engine work is modelled separately (finish functions). -/
def start_task (s : TaskManagerState) (task_id now : String) (save_ok : Bool) :
    TaskManagerState × Except TaskError Unit :=
  match get_task s.tasks task_id with
  | none => (s, Except.error (TaskError.TaskNotFound task_id))
  | some t =>
    if t.status ≠ TaskStatus.Pending then
      (s, Except.error (TaskError.InvalidStatus ("Task " ++ task_id ++ " is not in pending state")))
    else
      match update_task (start_update now) task_id s.tasks with
      | none => (s, Except.error (TaskError.TaskNotFound task_id))
      | some tasks2 =>
        let s2 := { s with tasks := tasks2 }
        if save_ok then (s2, Except.ok ())
        else (s2, Except.error (TaskError.StoreSaveError "save failed"))

/-- TaskManager::pause_task.  Guard: status must be Running. -/
def pause_task (s : TaskManagerState) (task_id : String) (save_ok : Bool) :
    TaskManagerState × Except TaskError Unit :=
  match get_task s.tasks task_id with
  | none => (s, Except.error (TaskError.TaskNotFound task_id))
  | some t =>
    if t.status ≠ TaskStatus.Running then
      (s, Except.error (TaskError.InvalidStatus ("Task " ++ task_id ++ " is not in running state")))
    else
      match update_task pause_update task_id s.tasks with
      | none => (s, Except.error (TaskError.TaskNotFound task_id))
      | some tasks2 =>
        let s2 := { s with tasks := tasks2 }
        if save_ok then (s2, Except.ok ())
        else (s2, Except.error (TaskError.StoreSaveError "save failed"))

/-- TaskManager::resume_task.  Guard: status must be Paused.  The condvar
wakeup does not touch the modelled state. -/
def resume_task (s : TaskManagerState) (task_id : String) (save_ok : Bool) :
    TaskManagerState × Except TaskError Unit :=
  match get_task s.tasks task_id with
  | none => (s, Except.error (TaskError.TaskNotFound task_id))
  | some t =>
    if t.status ≠ TaskStatus.Paused then
      (s, Except.error (TaskError.InvalidStatus ("Task " ++ task_id ++ " is not in paused state")))
    else
      match update_task resume_update task_id s.tasks with
      | none => (s, Except.error (TaskError.TaskNotFound task_id))
      | some tasks2 =>
        let s2 := { s with tasks := tasks2 }
        if save_ok then (s2, Except.ok ())
        else (s2, Except.error (TaskError.StoreSaveError "save failed"))

/-- TaskManager::cancel_task.  Guard: status in Pending, Running, Paused.
Sets Canceled and completed_at, saves (a failing save returns before the
queue removal), then removes the first queue occurrence of the id. -/
def cancel_task (s : TaskManagerState) (task_id now : String) (save_ok : Bool) :
    TaskManagerState × Except TaskError Unit :=
  match get_task s.tasks task_id with
  | none => (s, Except.error (TaskError.TaskNotFound task_id))
  | some t =>
    if t.status ≠ TaskStatus.Running ∧ t.status ≠ TaskStatus.Paused ∧
        t.status ≠ TaskStatus.Pending then
      (s, Except.error (TaskError.InvalidStatus ("Task " ++ task_id ++ " cannot be canceled in its current state")))
    else
      match update_task (cancel_update now) task_id s.tasks with
      | none => (s, Except.error (TaskError.TaskNotFound task_id))
      | some tasks2 =>
        let s2 := { s with tasks := tasks2 }
        if save_ok then
          ({ s2 with queue := remove_first task_id s2.queue }, Except.ok ())
        else (s2, Except.error (TaskError.StoreSaveError "save failed"))

/-- The queue block of retry_task: add the id to the queue tail only if
it is not already there. -/
def enqueue_if_absent (s : TaskManagerState) (task_id : String) : TaskManagerState :=
  if s.queue.contains task_id then s
  else { s with queue := s.queue ++ [task_id] }

/-- The final block of retry_task: if the queue is not paused and there
is an available slot, start the task. -/
def retry_dispatch (s : TaskManagerState) (task_id now : String) (save_ok : Bool) :
    TaskManagerState × Except TaskError Unit :=
  if ¬ s.is_queue_paused then
    if running_count s.tasks < s.max_concurrent_tasks then
      start_task s task_id now save_ok
    else (s, Except.ok ())
  else (s, Except.ok ())

/-- TaskManager::retry_task.  Guard: status in Failed, Canceled.  Resets
the task to Pending (progress 0, error and completed_at cleared), saves,
appends the id to the queue tail only when not already present, and when
the queue is not paused and a slot is free immediately calls start_task. -/
def retry_task (s : TaskManagerState) (task_id now : String) (save_ok : Bool) :
    TaskManagerState × Except TaskError Unit :=
  match get_task s.tasks task_id with
  | none => (s, Except.error (TaskError.TaskNotFound task_id))
  | some t =>
    if t.status ≠ TaskStatus.Failed ∧ t.status ≠ TaskStatus.Canceled then
      (s, Except.error (TaskError.InvalidStatus ("Task " ++ task_id ++ " cannot be retried in its current state")))
    else
      match update_task retry_update task_id s.tasks with
      | none => (s, Except.error (TaskError.TaskNotFound task_id))
      | some tasks2 =>
        let s2 := { s with tasks := tasks2 }
        if save_ok then
          retry_dispatch (enqueue_if_absent s2 task_id) task_id now save_ok
        else (s2, Except.error (TaskError.StoreSaveError "save failed"))

/-- TaskManager::remove_task.  Guard: status not Running and not Paused.
Removes the task from the list and every queue occurrence of the id. -/
def remove_task (s : TaskManagerState) (task_id : String) (save_ok : Bool) :
    TaskManagerState × Except TaskError Unit :=
  match get_task s.tasks task_id with
  | none => (s, Except.error (TaskError.TaskNotFound task_id))
  | some t =>
    if t.status = TaskStatus.Running ∨ t.status = TaskStatus.Paused then
      (s, Except.error (TaskError.InvalidStatus ("Task " ++ task_id ++ " cannot be removed while running or paused")))
    else
      let s2 := { s with tasks := s.tasks.filter (fun t2 => t2.id != task_id),
                         queue := s.queue.filter (fun id => id != task_id) }
      if save_ok then (s2, Except.ok ())
      else (s2, Except.error (TaskError.StoreSaveError "save failed"))

/-- TaskManager::clear_completed_tasks: remove every Completed or
Canceled task, ignoring individual errors; always returns Ok. -/
def clear_completed_tasks (s : TaskManagerState) (save_ok : Bool) :
    TaskManagerState × Except TaskError Unit :=
  let ids := (s.tasks.filter (fun t =>
    t.status == TaskStatus.Completed || t.status == TaskStatus.Canceled)).map Task.id
  (ids.foldl (fun acc id => (remove_task acc id save_ok).1) s, Except.ok ())

/-- TaskManager::reorder_tasks: first id in new_order naming no existing
task aborts with TaskNotFound before any mutation; otherwise the queue is
cleared and rebuilt as exactly new_order. -/
def reorder_tasks (s : TaskManagerState) (new_order : List String) (save_ok : Bool) :
    TaskManagerState × Except TaskError Unit :=
  match new_order.find? (fun id => ! s.tasks.any (fun t => t.id == id)) with
  | some missing => (s, Except.error (TaskError.TaskNotFound missing))
  | none =>
    let s2 := { s with queue := new_order }
    if save_ok then (s2, Except.ok ())
    else (s2, Except.error (TaskError.StoreSaveError "save failed"))

/-- TaskManager::set_max_concurrent_tasks (the semaphore rebuild has no
modelled state). -/
def set_max_concurrent_tasks (s : TaskManagerState) (max : Nat) (save_ok : Bool) :
    TaskManagerState × Except TaskError Unit :=
  let s2 := { s with max_concurrent_tasks := max }
  if save_ok then (s2, Except.ok ())
  else (s2, Except.error (TaskError.StoreSaveError "save failed"))

/-- TaskManager::pause_queue: set the flag, pause every Running task
(errors ignored), then save. -/
def pause_queue (s : TaskManagerState) (save_ok : Bool) :
    TaskManagerState × Except TaskError Unit :=
  let s1 := { s with is_queue_paused := true }
  let running_ids := (s1.tasks.filter (fun t => t.status == TaskStatus.Running)).map Task.id
  let s2 := running_ids.foldl (fun acc id => (pause_task acc id save_ok).1) s1
  if save_ok then (s2, Except.ok ())
  else (s2, Except.error (TaskError.StoreSaveError "save failed"))

/-- TaskManager::resume_queue: clear the flag, resume every Paused task
(errors ignored); process_next_tasks only emits events, so it does not
change the modelled state; then save. -/
def resume_queue (s : TaskManagerState) (save_ok : Bool) :
    TaskManagerState × Except TaskError Unit :=
  let s1 := { s with is_queue_paused := false }
  let paused_ids := (s1.tasks.filter (fun t => t.status == TaskStatus.Paused)).map Task.id
  let s2 := paused_ids.foldl (fun acc id => (resume_task acc id save_ok).1) s1
  if save_ok then (s2, Except.ok ())
  else (s2, Except.error (TaskError.StoreSaveError "save failed"))

/-- TaskManager::cancel_queue: cancel every Pending, Running or Paused
task (errors ignored), clear the queue, save. -/
def cancel_queue (s : TaskManagerState) (now : String) (save_ok : Bool) :
    TaskManagerState × Except TaskError Unit :=
  let ids := (s.tasks.filter (fun t =>
    t.status == TaskStatus.Pending || t.status == TaskStatus.Running ||
    t.status == TaskStatus.Paused)).map Task.id
  let s2 := ids.foldl (fun acc id => (cancel_task acc id now save_ok).1) s
  let s3 := { s2 with queue := [] }
  if save_ok then (s3, Except.ok ())
  else (s3, Except.error (TaskError.StoreSaveError "save failed"))

/-- The queue walk of process_next_tasks: collect, in queue order, the
ids whose task exists and is still Pending. -/
def pending_in_queue (tasks : List Task) (queue : List String) : List String :=
  queue.filter (fun id =>
    match get_task tasks id with
    | some t => t.status == TaskStatus.Pending
    | none => false)

/-- TaskManager::process_next_tasks.  The state is not mutated; the
result is the list of taskIds for which a start-task event is emitted,
produced by the counting loop of the source. -/
def process_next_tasks (s : TaskManagerState) : List String :=
  if s.is_queue_paused then []
  else
    let available_slots := s.max_concurrent_tasks - running_count s.tasks
    if available_slots = 0 then []
    else
      let pending := pending_in_queue s.tasks s.queue
      (pending.foldl (fun (acc : List String × Nat) id =>
        if acc.2 ≥ available_slots then acc
        else (acc.1 ++ [id], acc.2 + 1)) ([], 0)).1

/-- TaskManager::start_queue: when the queue is paused delegate to
resume_queue, otherwise only process_next_tasks runs (no state change). -/
def start_queue (s : TaskManagerState) (save_ok : Bool) :
    TaskManagerState × Except TaskError Unit :=
  if s.is_queue_paused then resume_queue s save_ok
  else (s, Except.ok ())

/-- The Persistent Store (tauri_plugin_store, external collaborator),
modelled as the four logical keys of tasks.json plus file existence. -/
structure Store where
  file_present : Bool
  tasks : Option (List Task)
  queue : Option (List String)
  max_concurrent_tasks : Option Nat
  is_queue_paused : Option Bool
deriving DecidableEq

/-- TaskManager::save_state, success case: all four keys are written and
the store file exists afterwards. -/
def save_state (s : TaskManagerState) (st : Store) : Store :=
  { st with file_present := true, tasks := some s.tasks, queue := some s.queue,
            max_concurrent_tasks := some s.max_concurrent_tasks,
            is_queue_paused := some s.is_queue_paused }

/-- TaskManager::load_state: no-op when the store file does not exist;
otherwise each present key overwrites the corresponding field. -/
def load_state (s : TaskManagerState) (st : Store) : TaskManagerState :=
  if ¬ st.file_present then s
  else
    let s1 := match st.tasks with
      | some ts => { s with tasks := ts }
      | none => s
    let s2 := match st.queue with
      | some q => { s1 with queue := q }
      | none => s1
    let s3 := match st.max_concurrent_tasks with
      | some m => { s2 with max_concurrent_tasks := m }
      | none => s2
    match st.is_queue_paused with
    | some p => { s3 with is_queue_paused := p }
    | none => s3

/-- The free function update_task_status in mod.rs, run by the spawned
engine thread on completion.  It reads the task, builds an updated copy
and emits it in a task-updated event; the stored task list is never
written.  The returned Option Task is the emitted snapshot. -/
def update_task_status (s : TaskManagerState) (task_id : String) (status : TaskStatus)
    (progress : Rat) (error : Option String) (now : String) :
    TaskManagerState × Option Task :=
  match get_task s.tasks task_id with
  | none => (s, none)
  | some t =>
    let u1 := { t with status := status, progress := progress }
    let u2 := match error with
      | some e => { u1 with error := some e }
      | none => u1
    let u3 := if status = TaskStatus.Completed ∨ status = TaskStatus.Failed ∨
        status = TaskStatus.Canceled then { u2 with completed_at := some now } else u2
    (s, some u3)

/-- The Ok branch of the spawned closure in start_task: the Execution
Engine reported success, so update_task_status is called with Completed,
progress 100 and no error. -/
def finish_task_success (s : TaskManagerState) (task_id now : String) :
    TaskManagerState × Option Task :=
  update_task_status s task_id TaskStatus.Completed 100 none now

/-- The Err branch of the spawned closure in start_task: the Engine
reported an error; update_task_status is called with Failed, the progress
of the clone taken at start time, and the error message. -/
def finish_task_error (s : TaskManagerState) (task_id : String) (clone_progress : Rat)
    (msg now : String) : TaskManagerState × Option Task :=
  update_task_status s task_id TaskStatus.Failed clone_progress (some msg) now

/-! Basic lemmas about the task-list helpers. -/

lemma get_task_cons (t : Task) (ts : List Task) (j : String) :
    get_task (t :: ts) j = if t.id = j then some t else get_task ts j := by
  by_cases h : t.id = j <;> simp [get_task, List.find?_cons, h]

lemma get_task_isSome_iff (ts : List Task) (j : String) :
    (get_task ts j).isSome ↔ ∃ t ∈ ts, t.id = j := by
  rw [get_task, List.find?_isSome]; simp

lemma get_task_append (ts1 ts2 : List Task) (j : String) :
    get_task (ts1 ++ ts2) j = (get_task ts1 j).or (get_task ts2 j) := by
  simp [get_task, List.find?_append]

lemma any_id_eq_isSome (ts : List Task) (j : String) :
    (ts.any (fun t => t.id == j)) = (get_task ts j).isSome := by
  induction ts with
  | nil => simp [get_task]
  | cons t ts ih =>
    by_cases h : t.id = j <;> simp [get_task_cons, h, ih]

lemma update_task_eq_none_iff (f : Task → Task) (i : String) (ts : List Task) :
    update_task f i ts = none ↔ get_task ts i = none := by
  induction ts with
  | nil => simp [update_task, get_task]
  | cons t ts ih =>
    by_cases h : t.id = i <;>
      simp [update_task, get_task_cons, h, ih, Option.map_eq_none']

lemma update_task_exists_of_get (f : Task → Task) (i : String) (ts : List Task) (t : Task)
    (hget : get_task ts i = some t) : ∃ ts2, update_task f i ts = some ts2 := by
  rcases hu : update_task f i ts with _ | ts2
  · rw [update_task_eq_none_iff] at hu
    rw [hu] at hget
    cases hget
  · exact ⟨ts2, rfl⟩

lemma get_task_update_self (f : Task → Task) (hf : ∀ u, (f u).id = u.id) (i : String) :
    ∀ (ts ts2 : List Task), update_task f i ts = some ts2 →
      get_task ts2 i = (get_task ts i).map f := by
  intro ts
  induction ts with
  | nil => intro ts2 h; simp [update_task] at h
  | cons t ts ih =>
    intro ts2 h
    by_cases hid : t.id = i
    · simp only [update_task, hid, beq_self_eq_true, if_true, Option.some.injEq] at h
      subst h
      simp [get_task_cons, hf, hid]
    · simp only [update_task, hid] at h
      rw [if_neg (by simp [hid])] at h
      rw [Option.map_eq_some'] at h
      obtain ⟨ts3, h3, hts2⟩ := h
      subst hts2
      simp [get_task_cons, hid, ih ts3 h3]

lemma get_task_update_ne (f : Task → Task) (hf : ∀ u, (f u).id = u.id) (i j : String)
    (hj : j ≠ i) :
    ∀ (ts ts2 : List Task), update_task f i ts = some ts2 →
      get_task ts2 j = get_task ts j := by
  intro ts
  induction ts with
  | nil => intro ts2 h; simp [update_task] at h
  | cons t ts ih =>
    intro ts2 h
    by_cases hid : t.id = i
    · simp only [update_task, hid, beq_self_eq_true, if_true, Option.some.injEq] at h
      subst h
      have hne : t.id ≠ j := by rw [hid]; exact fun e => hj e.symm
      simp [get_task_cons, hf, hne]
    · simp only [update_task, hid] at h
      rw [if_neg (by simp [hid])] at h
      rw [Option.map_eq_some'] at h
      obtain ⟨ts3, h3, hts2⟩ := h
      subst hts2
      simp [get_task_cons, ih ts3 h3]

lemma update_task_isSome_eq (f : Task → Task) (hf : ∀ u, (f u).id = u.id) (i : String)
    (ts ts2 : List Task) (h : update_task f i ts = some ts2) (j : String) :
    (get_task ts2 j).isSome = (get_task ts j).isSome := by
  by_cases hj : j = i
  · subst hj; rw [get_task_update_self f hf j ts ts2 h]; simp
  · rw [get_task_update_ne f hf i j hj ts ts2 h]

/-! Lemmas about running_count. -/

lemma running_count_cons (t : Task) (ts : List Task) :
    running_count (t :: ts) =
      (if t.status = TaskStatus.Running then 1 else 0) + running_count ts := by
  by_cases h : t.status = TaskStatus.Running <;>
    simp [running_count, List.filter_cons, h, Nat.add_comm]

lemma running_count_append (ts1 ts2 : List Task) :
    running_count (ts1 ++ ts2) = running_count ts1 + running_count ts2 := by
  simp [running_count, List.filter_append]

lemma running_count_update_le (f : Task → Task) (i : String) :
    ∀ (ts ts2 : List Task), update_task f i ts = some ts2 →
      running_count ts2 ≤ running_count ts + 1 := by
  intro ts
  induction ts with
  | nil => intro ts2 h; simp [update_task] at h
  | cons t ts ih =>
    intro ts2 h
    by_cases hid : t.id = i
    · simp only [update_task, hid, beq_self_eq_true, if_true, Option.some.injEq] at h
      subst h
      rw [running_count_cons, running_count_cons]
      have h1 : (if (f t).status = TaskStatus.Running then 1 else 0) ≤ 1 := by
        split <;> omega
      omega
    · simp only [update_task, hid] at h
      rw [if_neg (by simp [hid])] at h
      rw [Option.map_eq_some'] at h
      obtain ⟨ts3, h3, hts2⟩ := h
      subst hts2
      rw [running_count_cons, running_count_cons]
      have := ih ts3 h3
      omega

lemma running_count_update_not_running (f : Task → Task)
    (hfs : ∀ u, (f u).status ≠ TaskStatus.Running) (i : String) :
    ∀ (ts ts2 : List Task), update_task f i ts = some ts2 →
      running_count ts2 ≤ running_count ts := by
  intro ts
  induction ts with
  | nil => intro ts2 h; simp [update_task] at h
  | cons t ts ih =>
    intro ts2 h
    by_cases hid : t.id = i
    · simp only [update_task, hid, beq_self_eq_true, if_true, Option.some.injEq] at h
      subst h
      rw [running_count_cons, running_count_cons]
      rw [if_neg (hfs t)]
      split <;> omega
    · simp only [update_task, hid] at h
      rw [if_neg (by simp [hid])] at h
      rw [Option.map_eq_some'] at h
      obtain ⟨ts3, h3, hts2⟩ := h
      subst hts2
      rw [running_count_cons, running_count_cons]
      have := ih ts3 h3
      omega

lemma running_count_update_eq (f : Task → Task)
    (hfs : ∀ u, (f u).status ≠ TaskStatus.Running) (i : String) (t : Task)
    (ht : t.status ≠ TaskStatus.Running) :
    ∀ (ts ts2 : List Task), get_task ts i = some t → update_task f i ts = some ts2 →
      running_count ts2 = running_count ts := by
  intro ts
  induction ts with
  | nil => intro ts2 hget h; simp [update_task] at h
  | cons u ts ih =>
    intro ts2 hget h
    by_cases hid : u.id = i
    · rw [get_task_cons, if_pos hid, Option.some.injEq] at hget
      subst hget
      simp only [update_task, hid, beq_self_eq_true, if_true, Option.some.injEq] at h
      subst h
      rw [running_count_cons, running_count_cons, if_neg (hfs _), if_neg ht]
    · rw [get_task_cons, if_neg hid] at hget
      simp only [update_task, hid] at h
      rw [if_neg (by simp [hid])] at h
      rw [Option.map_eq_some'] at h
      obtain ⟨ts3, h3, hts2⟩ := h
      subst hts2
      rw [running_count_cons, running_count_cons, ih ts3 hget h3]

/-! Lemmas about queue helpers. -/

lemma mem_remove_first (x : String) :
    ∀ (q : List String) (j : String), j ∈ remove_first x q → j ∈ q := by
  intro q
  induction q with
  | nil => simp [remove_first]
  | cons y ys ih =>
    intro j hj
    by_cases h : y = x
    · rw [remove_first, if_pos (by simp [h])] at hj
      exact List.mem_cons_of_mem y hj
    · rw [remove_first, if_neg (by simp [h])] at hj
      rcases List.mem_cons.mp hj with h1 | h1
      · exact h1 ▸ List.mem_cons_self y ys
      · exact List.mem_cons_of_mem y (ih j h1)

lemma get_task_filter_ne (x j : String) (hj : j ≠ x) (ts : List Task) :
    get_task (ts.filter (fun t2 => t2.id != x)) j = get_task ts j := by
  induction ts with
  | nil => rfl
  | cons t ts ih =>
    by_cases hx : t.id = x
    · have hne : t.id ≠ j := by rw [hx]; exact fun e => hj e.symm
      rw [List.filter_cons, if_neg (by simp [hx])]
      rw [get_task_cons, if_neg hne, ih]
    · rw [List.filter_cons, if_pos (by simp [hx])]
      rw [get_task_cons, get_task_cons, ih]

lemma foldl_preserves {σ α : Type _} (P : σ → Prop) (f : σ → α → σ)
    (h : ∀ s a, P s → P (f s a)) :
    ∀ (l : List α) (s : σ), P s → P (l.foldl f s) := by
  intro l
  induction l with
  | nil => intro s hs; simpa using hs
  | cons a l ih => intro s hs; simpa using ih (f s a) (h s a hs)

lemma foldl_counter_take (av : Nat) :
    ∀ (l pre : List String) (n : Nat),
      (l.foldl (fun (acc : List String × Nat) id =>
        if acc.2 ≥ av then acc else (acc.1 ++ [id], acc.2 + 1)) (pre, n)).1 =
      pre ++ l.take (av - n) := by
  intro l
  induction l with
  | nil => intro pre n; simp
  | cons id rest ih =>
    intro pre n
    by_cases h : n ≥ av
    · have hz : av - n = 0 := Nat.sub_eq_zero_of_le h
      rw [List.foldl_cons, if_pos h, ih, hz]
      simp
    · have h1 : av - n = (av - (n + 1)) + 1 := by omega
      rw [List.foldl_cons, if_neg h, ih, h1, List.take_succ_cons]
      simp

lemma update_task_status_fst (s : TaskManagerState) (task_id : String) (st : TaskStatus)
    (p : Rat) (e : Option String) (now : String) :
    (update_task_status s task_id st p e now).1 = s := by
  unfold update_task_status
  rcases get_task s.tasks task_id with _ | t <;> rfl

/-! The queue-membership invariant (claim C1, amended): every id in the
queue names an existing task.  Proved below to be preserved by every
scheduler operation. -/

/-- Every id in the queue names an existing task. -/
def queue_ids_exist (s : TaskManagerState) : Prop :=
  ∀ id ∈ s.queue, (get_task s.tasks id).isSome

lemma option_or_isSome (a b : Option Task) :
    (a.or b).isSome = (a.isSome || b.isSome) := by
  cases a <;> simp

lemma qie_update (s : TaskManagerState) (f : Task → Task) (task_id : String)
    (tasks2 : List Task) (hupd : update_task f task_id s.tasks = some tasks2)
    (hf : ∀ u, (f u).id = u.id) (h : queue_ids_exist s) :
    queue_ids_exist { s with tasks := tasks2 } := by
  intro j hj
  show (get_task tasks2 j).isSome = true
  rw [update_task_isSome_eq f hf task_id s.tasks tasks2 hupd j]
  exact h j hj

lemma qie_create (s : TaskManagerState) (task_id input_path output_path task_type : String)
    (config : List (String × String)) (now : String) (h : queue_ids_exist s) :
    queue_ids_exist (create_task s task_id input_path output_path task_type config now).1 := by
  intro j hj
  show (get_task (s.tasks ++ [_]) j).isSome = true
  rw [get_task_append, option_or_isSome]
  rcases List.mem_append.mp hj with h1 | h1
  · rw [h j h1]
    simp
  · simp only [List.mem_singleton] at h1
    subst h1
    rw [get_task_cons]
    simp

lemma qie_start (s : TaskManagerState) (task_id now : String) (save_ok : Bool)
    (h : queue_ids_exist s) : queue_ids_exist (start_task s task_id now save_ok).1 := by
  unfold start_task
  split
  · exact h
  · split
    · exact h
    · split
      · exact h
      · rename_i tasks2 hupd
        split
        · exact qie_update s _ task_id tasks2 hupd (fun u => rfl) h
        · exact qie_update s _ task_id tasks2 hupd (fun u => rfl) h

lemma qie_pause (s : TaskManagerState) (task_id : String) (save_ok : Bool)
    (h : queue_ids_exist s) : queue_ids_exist (pause_task s task_id save_ok).1 := by
  unfold pause_task
  split
  · exact h
  · split
    · exact h
    · split
      · exact h
      · rename_i tasks2 hupd
        split
        · exact qie_update s _ task_id tasks2 hupd (fun u => rfl) h
        · exact qie_update s _ task_id tasks2 hupd (fun u => rfl) h

lemma qie_resume (s : TaskManagerState) (task_id : String) (save_ok : Bool)
    (h : queue_ids_exist s) : queue_ids_exist (resume_task s task_id save_ok).1 := by
  unfold resume_task
  split
  · exact h
  · split
    · exact h
    · split
      · exact h
      · rename_i tasks2 hupd
        split
        · exact qie_update s _ task_id tasks2 hupd (fun u => rfl) h
        · exact qie_update s _ task_id tasks2 hupd (fun u => rfl) h

lemma qie_cancel (s : TaskManagerState) (task_id now : String) (save_ok : Bool)
    (h : queue_ids_exist s) : queue_ids_exist (cancel_task s task_id now save_ok).1 := by
  unfold cancel_task
  split
  · exact h
  · split
    · exact h
    · split
      · exact h
      · rename_i tasks2 hupd
        have h2 : queue_ids_exist { s with tasks := tasks2 } :=
          qie_update s _ task_id tasks2 hupd (fun u => rfl) h
        split
        · intro j hj
          exact h2 j (mem_remove_first task_id _ j hj)
        · exact h2

lemma qie_enqueue_if_absent (s : TaskManagerState) (task_id : String)
    (hid : (get_task s.tasks task_id).isSome = true) (h : queue_ids_exist s) :
    queue_ids_exist (enqueue_if_absent s task_id) := by
  unfold enqueue_if_absent
  split
  · exact h
  · intro j hj
    rcases List.mem_append.mp hj with h1 | h1
    · exact h j h1
    · simp only [List.mem_singleton] at h1
      subst h1
      exact hid

lemma qie_retry_dispatch (s : TaskManagerState) (task_id now : String) (save_ok : Bool)
    (h : queue_ids_exist s) :
    queue_ids_exist (retry_dispatch s task_id now save_ok).1 := by
  unfold retry_dispatch
  split
  · split
    · exact qie_start s task_id now save_ok h
    · exact h
  · exact h

lemma qie_retry (s : TaskManagerState) (task_id now : String) (save_ok : Bool)
    (h : queue_ids_exist s) : queue_ids_exist (retry_task s task_id now save_ok).1 := by
  unfold retry_task
  split
  · exact h
  · rename_i t hget
    split
    · exact h
    · split
      · exact h
      · rename_i tasks2 hupd
        have h2 : queue_ids_exist { s with tasks := tasks2 } :=
          qie_update s _ task_id tasks2 hupd (fun u => rfl) h
        have hid : (get_task tasks2 task_id).isSome = true := by
          rw [update_task_isSome_eq retry_update (fun u => rfl) task_id s.tasks tasks2 hupd,
            hget]
          rfl
        split
        · exact qie_retry_dispatch _ task_id now save_ok
            (qie_enqueue_if_absent _ task_id hid h2)
        · exact h2

lemma qie_remove (s : TaskManagerState) (task_id : String) (save_ok : Bool)
    (h : queue_ids_exist s) : queue_ids_exist (remove_task s task_id save_ok).1 := by
  unfold remove_task
  split
  · exact h
  · split
    · exact h
    · have h2 : queue_ids_exist
          { s with tasks := s.tasks.filter (fun t2 => t2.id != task_id),
                   queue := s.queue.filter (fun id => id != task_id) } := by
        intro j hj
        have hj2 := List.mem_filter.mp hj
        have hne : j ≠ task_id := by simpa using hj2.2
        show (get_task (s.tasks.filter (fun t2 => t2.id != task_id)) j).isSome = true
        rw [get_task_filter_ne task_id j hne]
        exact h j hj2.1
      split
      · exact h2
      · exact h2

lemma qie_clear (s : TaskManagerState) (save_ok : Bool)
    (h : queue_ids_exist s) : queue_ids_exist (clear_completed_tasks s save_ok).1 := by
  unfold clear_completed_tasks
  exact foldl_preserves queue_ids_exist _
    (fun s2 id h2 => qie_remove s2 id save_ok h2) _ s h

lemma qie_reorder (s : TaskManagerState) (new_order : List String) (save_ok : Bool)
    (h : queue_ids_exist s) : queue_ids_exist (reorder_tasks s new_order save_ok).1 := by
  unfold reorder_tasks
  split
  · exact h
  · rename_i hfind
    have hall : ∀ id ∈ new_order, (get_task s.tasks id).isSome = true := by
      intro id hid
      have hp := List.find?_eq_none.mp hfind id hid
      rw [← any_id_eq_isSome]
      simpa using hp
    split
    · exact fun j hj => hall j hj
    · exact fun j hj => hall j hj

lemma qie_pause_queue (s : TaskManagerState) (save_ok : Bool)
    (h : queue_ids_exist s) : queue_ids_exist (pause_queue s save_ok).1 := by
  have h1 : queue_ids_exist { s with is_queue_paused := true } := fun j hj => h j hj
  have h2 := foldl_preserves queue_ids_exist
    (fun acc id => (pause_task acc id save_ok).1)
    (fun s2 id hq => qie_pause s2 id save_ok hq)
    ((({ s with is_queue_paused := true } : TaskManagerState).tasks.filter
      (fun t => t.status == TaskStatus.Running)).map Task.id)
    { s with is_queue_paused := true } h1
  unfold pause_queue
  split
  · exact h2
  · exact h2

lemma qie_resume_queue (s : TaskManagerState) (save_ok : Bool)
    (h : queue_ids_exist s) : queue_ids_exist (resume_queue s save_ok).1 := by
  have h1 : queue_ids_exist { s with is_queue_paused := false } := fun j hj => h j hj
  have h2 := foldl_preserves queue_ids_exist
    (fun acc id => (resume_task acc id save_ok).1)
    (fun s2 id hq => qie_resume s2 id save_ok hq)
    ((({ s with is_queue_paused := false } : TaskManagerState).tasks.filter
      (fun t => t.status == TaskStatus.Paused)).map Task.id)
    { s with is_queue_paused := false } h1
  unfold resume_queue
  split
  · exact h2
  · exact h2

lemma qie_cancel_queue (s : TaskManagerState) (now : String) (save_ok : Bool) :
    queue_ids_exist (cancel_queue s now save_ok).1 := by
  unfold cancel_queue
  split
  · exact fun j hj => absurd hj (List.not_mem_nil j)
  · exact fun j hj => absurd hj (List.not_mem_nil j)

lemma qie_start_queue (s : TaskManagerState) (save_ok : Bool)
    (h : queue_ids_exist s) : queue_ids_exist (start_queue s save_ok).1 := by
  unfold start_queue
  split
  · exact qie_resume_queue s save_ok h
  · exact h

lemma qie_set_max (s : TaskManagerState) (max : Nat) (save_ok : Bool)
    (h : queue_ids_exist s) :
    queue_ids_exist (set_max_concurrent_tasks s max save_ok).1 := by
  unfold set_max_concurrent_tasks
  split
  · exact fun j hj => h j hj
  · exact fun j hj => h j hj

/-! The transition system: one constructor per public scheduler
operation, with arbitrary inputs (uuid, timestamps, whether the store
save succeeds), plus the two engine-completion callbacks. -/

/-- One scheduler operation applied to a state. -/
inductive Step : TaskManagerState → TaskManagerState → Prop
  | create (s : TaskManagerState) (task_id input_path output_path task_type : String)
      (config : List (String × String)) (now : String) :
      Step s (create_task s task_id input_path output_path task_type config now).1
  | start (s : TaskManagerState) (task_id now : String) (save_ok : Bool) :
      Step s (start_task s task_id now save_ok).1
  | pause (s : TaskManagerState) (task_id : String) (save_ok : Bool) :
      Step s (pause_task s task_id save_ok).1
  | resume (s : TaskManagerState) (task_id : String) (save_ok : Bool) :
      Step s (resume_task s task_id save_ok).1
  | cancel (s : TaskManagerState) (task_id now : String) (save_ok : Bool) :
      Step s (cancel_task s task_id now save_ok).1
  | retry (s : TaskManagerState) (task_id now : String) (save_ok : Bool) :
      Step s (retry_task s task_id now save_ok).1
  | remove (s : TaskManagerState) (task_id : String) (save_ok : Bool) :
      Step s (remove_task s task_id save_ok).1
  | clear (s : TaskManagerState) (save_ok : Bool) :
      Step s (clear_completed_tasks s save_ok).1
  | reorder (s : TaskManagerState) (new_order : List String) (save_ok : Bool) :
      Step s (reorder_tasks s new_order save_ok).1
  | pause_q (s : TaskManagerState) (save_ok : Bool) :
      Step s (pause_queue s save_ok).1
  | resume_q (s : TaskManagerState) (save_ok : Bool) :
      Step s (resume_queue s save_ok).1
  | cancel_q (s : TaskManagerState) (now : String) (save_ok : Bool) :
      Step s (cancel_queue s now save_ok).1
  | start_q (s : TaskManagerState) (save_ok : Bool) :
      Step s (start_queue s save_ok).1
  | set_max (s : TaskManagerState) (max : Nat) (save_ok : Bool) :
      Step s (set_max_concurrent_tasks s max save_ok).1
  | finish_ok (s : TaskManagerState) (task_id now : String) :
      Step s (finish_task_success s task_id now).1
  | finish_err (s : TaskManagerState) (task_id : String) (p : Rat) (msg now : String) :
      Step s (finish_task_error s task_id p msg now).1

/-- States reachable from a freshly constructed TaskManager by scheduler
operations. -/
inductive Reachable : TaskManagerState → Prop
  | init (d : Nat) : Reachable (new_task_manager d)
  | step {s s2 : TaskManagerState} : Reachable s → Step s s2 → Reachable s2

lemma finish_task_success_fst (s : TaskManagerState) (task_id now : String) :
    (finish_task_success s task_id now).1 = s :=
  update_task_status_fst s task_id TaskStatus.Completed 100 none now

lemma finish_task_error_fst (s : TaskManagerState) (task_id : String) (p : Rat)
    (msg now : String) : (finish_task_error s task_id p msg now).1 = s :=
  update_task_status_fst s task_id TaskStatus.Failed p (some msg) now

lemma reachable_queue_ids_exist (s : TaskManagerState) (h : Reachable s) :
    queue_ids_exist s := by
  induction h with
  | init d => exact fun j hj => absurd hj (List.not_mem_nil j)
  | step hr hs ih =>
    cases hs with
    | create a b c d e f => exact qie_create _ a b c d e f ih
    | start a b c => exact qie_start _ a b c ih
    | pause a b => exact qie_pause _ a b ih
    | resume a b => exact qie_resume _ a b ih
    | cancel a b c => exact qie_cancel _ a b c ih
    | retry a b c => exact qie_retry _ a b c ih
    | remove a b => exact qie_remove _ a b ih
    | clear a => exact qie_clear _ a ih
    | reorder a b => exact qie_reorder _ a b ih
    | pause_q a => exact qie_pause_queue _ a ih
    | resume_q a => exact qie_resume_queue _ a ih
    | cancel_q a b => exact qie_cancel_queue _ a b
    | start_q a => exact qie_start_queue _ a ih
    | set_max a b => exact qie_set_max _ a b ih
    | finish_ok a b => exact (finish_task_success_fst _ a b) ▸ ih
    | finish_err a b c d => exact (finish_task_error_fst _ a b c d) ▸ ih

/-! The admission-bounded transition system of claim C3 (amended): the
operation set of the claim (create, start, cancel, finish), where starts
happen only through the admission guard that process_next_tasks and
retry_task apply: a start is triggered only while the Running count is
strictly below the concurrency limit. -/

/-- One create/start/cancel/finish step with admission-guarded start. -/
inductive AdmStep : TaskManagerState → TaskManagerState → Prop
  | create (s : TaskManagerState) (task_id input_path output_path task_type : String)
      (config : List (String × String)) (now : String) :
      AdmStep s (create_task s task_id input_path output_path task_type config now).1
  | start (s : TaskManagerState) (task_id now : String) (save_ok : Bool)
      (hguard : running_count s.tasks < s.max_concurrent_tasks) :
      AdmStep s (start_task s task_id now save_ok).1
  | cancel (s : TaskManagerState) (task_id now : String) (save_ok : Bool) :
      AdmStep s (cancel_task s task_id now save_ok).1
  | finish_ok (s : TaskManagerState) (task_id now : String) :
      AdmStep s (finish_task_success s task_id now).1
  | finish_err (s : TaskManagerState) (task_id : String) (p : Rat) (msg now : String) :
      AdmStep s (finish_task_error s task_id p msg now).1

/-- States reachable under admission-guarded starts. -/
inductive AdmReachable : TaskManagerState → Prop
  | init (d : Nat) : AdmReachable (new_task_manager d)
  | step {s s2 : TaskManagerState} : AdmReachable s → AdmStep s s2 → AdmReachable s2

/-- The Running count is bounded by the concurrency limit. -/
def running_le (s : TaskManagerState) : Prop :=
  running_count s.tasks ≤ s.max_concurrent_tasks

lemma running_count_singleton_pending (t : Task) (ht : t.status = TaskStatus.Pending) :
    running_count [t] = 0 := by
  simp [running_count, ht]

lemma rle_create (s : TaskManagerState) (task_id input_path output_path task_type : String)
    (config : List (String × String)) (now : String) (h : running_le s) :
    running_le (create_task s task_id input_path output_path task_type config now).1 := by
  show running_count (s.tasks ++ [_]) ≤ s.max_concurrent_tasks
  rw [running_count_append, running_count_singleton_pending _ rfl]
  exact h

lemma rle_start_guard (s : TaskManagerState) (task_id now : String) (save_ok : Bool)
    (hguard : running_count s.tasks < s.max_concurrent_tasks) :
    running_le (start_task s task_id now save_ok).1 := by
  unfold start_task
  split
  · exact Nat.le_of_lt hguard
  · split
    · exact Nat.le_of_lt hguard
    · split
      · exact Nat.le_of_lt hguard
      · rename_i tasks2 hupd
        have h2 := running_count_update_le (start_update now) task_id s.tasks tasks2 hupd
        have h3 : running_count tasks2 ≤ s.max_concurrent_tasks := by omega
        split
        · exact h3
        · exact h3

lemma rle_cancel (s : TaskManagerState) (task_id now : String) (save_ok : Bool)
    (h : running_le s) : running_le (cancel_task s task_id now save_ok).1 := by
  unfold cancel_task
  split
  · exact h
  · split
    · exact h
    · split
      · exact h
      · rename_i tasks2 hupd
        have h2 := running_count_update_not_running (cancel_update now)
          (fun u => by simp [cancel_update]) task_id s.tasks tasks2 hupd
        have h3 : running_count tasks2 ≤ s.max_concurrent_tasks := le_trans h2 h
        split
        · exact h3
        · exact h3

lemma adm_reachable_running_le (s : TaskManagerState) (h : AdmReachable s) :
    running_le s := by
  induction h with
  | init d =>
    show running_count ([] : List Task) ≤ d
    simp [running_count]
  | step hr hs ih =>
    cases hs with
    | create a b c d e f => exact rle_create _ a b c d e f ih
    | start a b c hguard => exact rle_start_guard _ a b c hguard
    | cancel a b c => exact rle_cancel _ a b c ih
    | finish_ok a b => exact (finish_task_success_fst _ a b) ▸ ih
    | finish_err a b c d => exact (finish_task_error_fst _ a b c d) ▸ ih

/-! Concrete states used by the closed instances below.  Each is built by
applying the scheduler operations to a fresh manager, so reachability is
immediate from the Step constructors. -/

/-- A concrete task literal (the shape create_task builds). -/
def sample_task (id : String) (st : TaskStatus) : Task :=
  { id := id, input_path := "in.mp4", output_path := "out.mp4", status := st,
    progress := 0, error := none, attempts := 0, created_at := "t0",
    started_at := none, completed_at := none, task_type := "convert", config := [] }

/-- Fresh manager with limit 2 after create_task of task a. -/
def state_a_created : TaskManagerState :=
  (create_task (new_task_manager 2) "a" "in.mp4" "out.mp4" "convert" [] "t0").1

/-- state_a_created after start_task of a. -/
def state_a_started : TaskManagerState :=
  (start_task state_a_created "a" "t1" true).1

/-- C1: the claimed invariant is false.  After create_task plus
start_task the started task has status Running while its id is still in
the Queue: start_task never removes the id from the queue (cancel_task
and remove_task are the only operations that remove single entries). -/
theorem c1_running_in_queue_cex :
    Reachable state_a_started ∧ "a" ∈ state_a_started.queue ∧
      (get_task state_a_started.tasks "a").map Task.status =
        some TaskStatus.Running := by
  refine ⟨?_, by decide, by decide⟩
  exact Reachable.step
    (Reachable.step (Reachable.init 2)
      (Step.create (new_task_manager 2) "a" "in.mp4" "out.mp4" "convert" [] "t0"))
    (Step.start state_a_created "a" "t1" true)

/-- C1 (amended): after every sequence of scheduler operations, every
task id present in the Queue refers to an existing Task.  The claimed
stronger invariant (queued ids are Pending, Pending ids queued exactly
once) fails: started tasks keep their queue entry, and reorder_tasks can
drop Pending ids or duplicate entries. -/
theorem c1_queue_ids_exist_invariant (s : TaskManagerState) (h : Reachable s) :
    ∀ id ∈ s.queue, ∃ t ∈ s.tasks, t.id = id := by
  intro j hj
  exact (get_task_isSome_iff s.tasks j).mp (reachable_queue_ids_exist s h j hj)

/-- Witness for C1: the invariant applied at a concrete reachable state
with a nonempty queue. -/
theorem c1_queue_ids_exist_witness :
    ∃ t ∈ state_a_created.tasks, t.id = "a" :=
  c1_queue_ids_exist_invariant state_a_created
    (Reachable.step (Reachable.init 2)
      (Step.create (new_task_manager 2) "a" "in.mp4" "out.mp4" "convert" [] "t0"))
    "a" (by decide)

/-- C2 (code bug, evaluated at the failing input): task a is Running in
state_a_started; the Engine reports success, so the spawned closure calls
update_task_status with Completed, progress 100 and a completion
timestamp.  That function only emits a task-updated event carrying the
would-be snapshot: the stored state is returned unchanged and the stored
status is still Running, not Completed. -/
theorem c2_engine_success_does_not_update_stored_task :
    (finish_task_success state_a_started "a" "t2").1 = state_a_started ∧
    (get_task (finish_task_success state_a_started "a" "t2").1.tasks "a").map Task.status =
      some TaskStatus.Running ∧
    (finish_task_success state_a_started "a" "t2").2.map Task.status =
      some TaskStatus.Completed ∧
    (finish_task_success state_a_started "a" "t2").2.map Task.progress = some 100 ∧
    (finish_task_success state_a_started "a" "t2").2.map Task.completed_at =
      some (some "t2") :=
  ⟨by decide, by decide, by decide, by decide, by decide⟩

/-- state_a_created after also creating b and c. -/
def state_abc_created : TaskManagerState :=
  (create_task (create_task state_a_created "b" "in.mp4" "out.mp4" "convert" [] "t0").1
    "c" "in.mp4" "out.mp4" "convert" [] "t0").1

/-- state_abc_created after direct start_task of a, b and c. -/
def state_abc_started : TaskManagerState :=
  (start_task (start_task (start_task state_abc_created "a" "t1" true).1
    "b" "t1" true).1 "c" "t1" true).1

/-- C3: the claim is false for direct start_task calls.  With limit 2,
creating three tasks and calling start_task on each yields three tasks
with status Running: start_task checks only that the task is Pending,
never the Running count (the semaphore gates the spawned engine work, not
the status field). -/
theorem c3_running_exceeds_limit_cex :
    Reachable state_abc_started ∧ running_count state_abc_started.tasks = 3 ∧
      state_abc_started.max_concurrent_tasks = 2 := by
  refine ⟨?_, by decide, by decide⟩
  exact Reachable.step (Reachable.step (Reachable.step (Reachable.step (Reachable.step
    (Reachable.step (Reachable.init 2)
      (Step.create (new_task_manager 2) "a" "in.mp4" "out.mp4" "convert" [] "t0"))
      (Step.create state_a_created "b" "in.mp4" "out.mp4" "convert" [] "t0"))
      (Step.create (create_task state_a_created "b" "in.mp4" "out.mp4" "convert" [] "t0").1
        "c" "in.mp4" "out.mp4" "convert" [] "t0"))
      (Step.start state_abc_created "a" "t1" true))
      (Step.start (start_task state_abc_created "a" "t1" true).1 "b" "t1" true))
      (Step.start (start_task (start_task state_abc_created "a" "t1" true).1
        "b" "t1" true).1 "c" "t1" true)

/-- C3 (amended): under create/start/cancel/finish steps where every
start is admission-gated (started only while the Running count is below
the limit, the guard process_next_tasks and retry_task apply), the number
of Running tasks never exceeds max_concurrent_tasks. -/
theorem c3_admission_bounded_invariant (s : TaskManagerState) (h : AdmReachable s) :
    running_count s.tasks ≤ s.max_concurrent_tasks :=
  adm_reachable_running_le s h

/-- Witness for C3: the bound applied after a concrete admission-gated
start. -/
theorem c3_admission_bounded_witness :
    running_count (start_task state_a_created "a" "t1" true).1.tasks ≤
      (start_task state_a_created "a" "t1" true).1.max_concurrent_tasks :=
  c3_admission_bounded_invariant (start_task state_a_created "a" "t1" true).1
    (AdmReachable.step
      (AdmReachable.step (AdmReachable.init 2)
        (AdmStep.create (new_task_manager 2) "a" "in.mp4" "out.mp4" "convert" [] "t0"))
      (AdmStep.start state_a_created "a" "t1" true (by decide)))

/-- Tests that a TaskResult is an InvalidStatus error. -/
def is_invalid_status : Except TaskError Unit → Bool
  | Except.error (TaskError.InvalidStatus _) => true
  | _ => false

/-- C4: every guarded transition attempted from a disallowed status
returns InvalidStatus and leaves the whole state unchanged: start_task on
a non-Pending task, pause_task on a non-Running task, resume_task on a
non-Paused task, cancel_task on a terminal task, and retry_task on a task
that is neither Failed nor Canceled. -/
theorem c4_guard_failures_no_mutation (s : TaskManagerState) (task_id now : String)
    (save_ok : Bool) (t : Task) (hget : get_task s.tasks task_id = some t) :
    (t.status ≠ TaskStatus.Pending →
      (start_task s task_id now save_ok).1 = s ∧
      is_invalid_status (start_task s task_id now save_ok).2 = true) ∧
    (t.status ≠ TaskStatus.Running →
      (pause_task s task_id save_ok).1 = s ∧
      is_invalid_status (pause_task s task_id save_ok).2 = true) ∧
    (t.status ≠ TaskStatus.Paused →
      (resume_task s task_id save_ok).1 = s ∧
      is_invalid_status (resume_task s task_id save_ok).2 = true) ∧
    ((t.status = TaskStatus.Completed ∨ t.status = TaskStatus.Failed ∨
        t.status = TaskStatus.Canceled) →
      (cancel_task s task_id now save_ok).1 = s ∧
      is_invalid_status (cancel_task s task_id now save_ok).2 = true) ∧
    ((t.status ≠ TaskStatus.Failed ∧ t.status ≠ TaskStatus.Canceled) →
      (retry_task s task_id now save_ok).1 = s ∧
      is_invalid_status (retry_task s task_id now save_ok).2 = true) := by
  refine ⟨fun hstat => ?_, fun hstat => ?_, fun hstat => ?_, fun hstat => ?_,
    fun hstat => ?_⟩
  · simp only [start_task, hget]
    rw [if_pos hstat]
    exact ⟨rfl, rfl⟩
  · simp only [pause_task, hget]
    rw [if_pos hstat]
    exact ⟨rfl, rfl⟩
  · simp only [resume_task, hget]
    rw [if_pos hstat]
    exact ⟨rfl, rfl⟩
  · have hc : t.status ≠ TaskStatus.Running ∧ t.status ≠ TaskStatus.Paused ∧
        t.status ≠ TaskStatus.Pending := by
      rcases hstat with h1 | h1 | h1 <;> rw [h1] <;>
        exact ⟨by decide, by decide, by decide⟩
    simp only [cancel_task, hget]
    rw [if_pos hc]
    exact ⟨rfl, rfl⟩
  · simp only [retry_task, hget]
    rw [if_pos hstat]
    exact ⟨rfl, rfl⟩

/-- A state holding one Completed task, used to exercise every guard. -/
def state_one_completed : TaskManagerState :=
  { tasks := [sample_task "a" TaskStatus.Completed], queue := [],
    max_concurrent_tasks := 2, is_queue_paused := false }

/-- Witness for C4: all five guards fire on a Completed task and mutate
nothing. -/
theorem c4_guard_failures_witness :
    ((start_task state_one_completed "a" "t1" true).1 = state_one_completed ∧
      is_invalid_status (start_task state_one_completed "a" "t1" true).2 = true) ∧
    ((pause_task state_one_completed "a" true).1 = state_one_completed ∧
      is_invalid_status (pause_task state_one_completed "a" true).2 = true) ∧
    ((resume_task state_one_completed "a" true).1 = state_one_completed ∧
      is_invalid_status (resume_task state_one_completed "a" true).2 = true) ∧
    ((cancel_task state_one_completed "a" "t1" true).1 = state_one_completed ∧
      is_invalid_status (cancel_task state_one_completed "a" "t1" true).2 = true) ∧
    ((retry_task state_one_completed "a" "t1" true).1 = state_one_completed ∧
      is_invalid_status (retry_task state_one_completed "a" "t1" true).2 = true) := by
  obtain ⟨h1, h2, h3, h4, h5⟩ := c4_guard_failures_no_mutation state_one_completed
    "a" "t1" true (sample_task "a" TaskStatus.Completed) (by decide)
  exact ⟨h1 (by decide), h2 (by decide), h3 (by decide),
    h4 (Or.inl rfl), h5 (by decide)⟩

/-- C5: process_next_tasks does nothing when the queue is paused;
otherwise it triggers starts for exactly the first
available = max_concurrent_tasks - running_count entries of the Queue
whose task exists and is still Pending, skipping the others (and does
nothing when available is zero, since take 0 is empty). -/
theorem c5_process_next_tasks_spec (s : TaskManagerState) :
    process_next_tasks s =
      if s.is_queue_paused then []
      else (s.queue.filter (fun id =>
          match get_task s.tasks id with
          | some t => t.status == TaskStatus.Pending
          | none => false)).take
        (s.max_concurrent_tasks - running_count s.tasks) := by
  unfold process_next_tasks
  by_cases hp : s.is_queue_paused
  · rw [if_pos hp, if_pos hp]
  · rw [if_neg hp, if_neg hp]
    by_cases hav : s.max_concurrent_tasks - running_count s.tasks = 0
    · rw [if_pos hav, hav]
      simp
    · rw [if_neg hav, foldl_counter_take]
      simp [pending_in_queue]

/-- C7: reorder_tasks with any unknown id fails with TaskNotFound before
any mutation (atomic failure); with all ids known it replaces the Queue
by exactly new_order and leaves the task list and settings unchanged. -/
theorem c7_reorder_atomic (s : TaskManagerState) (new_order : List String)
    (save_ok : Bool) :
    ((∃ m ∈ new_order, get_task s.tasks m = none) →
      ∃ m ∈ new_order, get_task s.tasks m = none ∧
        reorder_tasks s new_order save_ok =
          (s, Except.error (TaskError.TaskNotFound m))) ∧
    ((∀ m ∈ new_order, (get_task s.tasks m).isSome) →
      (reorder_tasks s new_order save_ok).1.tasks = s.tasks ∧
      (reorder_tasks s new_order save_ok).1.queue = new_order ∧
      (reorder_tasks s new_order save_ok).1.max_concurrent_tasks =
        s.max_concurrent_tasks ∧
      (reorder_tasks s new_order save_ok).1.is_queue_paused = s.is_queue_paused) := by
  constructor
  · rintro ⟨m0, hm0, hnone⟩
    have hsome : (new_order.find?
        (fun id => ! s.tasks.any (fun t => t.id == id))).isSome := by
      rw [List.find?_isSome]
      refine ⟨m0, hm0, ?_⟩
      rw [any_id_eq_isSome, hnone]
      rfl
    rcases hfind : new_order.find? (fun id => ! s.tasks.any (fun t => t.id == id))
      with _ | m
    · rw [hfind] at hsome
      cases hsome
    · refine ⟨m, List.mem_of_find?_eq_some hfind, ?_, ?_⟩
      · have hpm := List.find?_some hfind
        rw [any_id_eq_isSome] at hpm
        rcases hg : get_task s.tasks m with _ | u
        · rfl
        · rw [hg] at hpm
          simp at hpm
      · simp only [reorder_tasks, hfind]
  · intro hall
    have hfind : new_order.find?
        (fun id => ! s.tasks.any (fun t => t.id == id)) = none := by
      rw [List.find?_eq_none]
      intro a ha
      simp [any_id_eq_isSome, hall a ha]
    simp only [reorder_tasks, hfind]
    cases save_ok <;> exact ⟨rfl, rfl, rfl, rfl⟩

/-- Witness for C7: both branches at concrete inputs: reordering with an
unknown id fails atomically; reordering with a known id replaces the
queue. -/
theorem c7_reorder_atomic_witness :
    (∃ m ∈ ["z"], get_task state_one_completed.tasks m = none ∧
      reorder_tasks state_one_completed ["z"] true =
        (state_one_completed, Except.error (TaskError.TaskNotFound m))) ∧
    (reorder_tasks state_one_completed ["a"] true).1.queue = ["a"] := by
  constructor
  · exact (c7_reorder_atomic state_one_completed ["z"] true).1
      ⟨"z", by decide, by decide⟩
  · exact ((c7_reorder_atomic state_one_completed ["a"] true).2 (by decide)).2.1

/-- C8: save_state followed by load_state on a fresh scheduler (with any
default limit) reproduces the task list, queue, concurrency limit and
pause flag; load_state on a store that does not exist leaves the fresh
empty state intact. -/
theorem c8_save_load_roundtrip (s : TaskManagerState) (st : Store) (d : Nat) :
    ((load_state (new_task_manager d) (save_state s st)).tasks = s.tasks ∧
     (load_state (new_task_manager d) (save_state s st)).queue = s.queue ∧
     (load_state (new_task_manager d) (save_state s st)).max_concurrent_tasks =
       s.max_concurrent_tasks ∧
     (load_state (new_task_manager d) (save_state s st)).is_queue_paused =
       s.is_queue_paused) ∧
    (st.file_present = false → load_state (new_task_manager d) st = new_task_manager d) := by
  constructor
  · have hload : load_state (new_task_manager d) (save_state s st) =
        { tasks := s.tasks, queue := s.queue,
          max_concurrent_tasks := s.max_concurrent_tasks,
          is_queue_paused := s.is_queue_paused } := by
      simp [load_state, save_state]
    rw [hload]
    exact ⟨rfl, rfl, rfl, rfl⟩
  · intro h
    unfold load_state
    rw [h]
    simp

/-- A store that does not exist on disk. -/
def missing_store : Store :=
  { file_present := false, tasks := none, queue := none,
    max_concurrent_tasks := none, is_queue_paused := none }

/-- Witness for C8: round trip at a concrete state and the no-op load at
a missing store. -/
theorem c8_save_load_roundtrip_witness :
    (load_state (new_task_manager 4) (save_state state_a_started missing_store)).tasks =
      state_a_started.tasks ∧
    load_state (new_task_manager 4) missing_store = new_task_manager 4 := by
  have h := c8_save_load_roundtrip state_a_started missing_store 4
  exact ⟨h.1.1, h.2 rfl⟩

/-- C9: a failing store save during pause_task or cancel_task surfaces a
StoreSaveError but does not roll back the in-memory transition: after
pause_task with a failing save the task is Paused, after cancel_task with
a failing save the task is Canceled. -/
theorem c9_store_save_failure_no_rollback (s : TaskManagerState) (task_id now : String)
    (t : Task) (hget : get_task s.tasks task_id = some t) :
    (t.status = TaskStatus.Running →
      (get_task (pause_task s task_id false).1.tasks task_id).map Task.status =
        some TaskStatus.Paused ∧
      (pause_task s task_id false).2 =
        Except.error (TaskError.StoreSaveError "save failed")) ∧
    ((t.status = TaskStatus.Pending ∨ t.status = TaskStatus.Running ∨
        t.status = TaskStatus.Paused) →
      (get_task (cancel_task s task_id now false).1.tasks task_id).map Task.status =
        some TaskStatus.Canceled ∧
      (cancel_task s task_id now false).2 =
        Except.error (TaskError.StoreSaveError "save failed")) := by
  constructor
  · intro hstat
    obtain ⟨tasks2, hupd⟩ := update_task_exists_of_get pause_update task_id s.tasks t hget
    have hget2 : get_task tasks2 task_id = some (pause_update t) := by
      rw [get_task_update_self pause_update (fun u => rfl) task_id s.tasks tasks2 hupd,
        hget]
      rfl
    simp only [pause_task, hget]
    rw [if_neg (not_not_intro hstat)]
    simp only [hupd]
    rw [if_neg (by decide : ¬ ((false : Bool) = true))]
    refine ⟨?_, rfl⟩
    show (get_task tasks2 task_id).map Task.status = some TaskStatus.Paused
    rw [hget2]
    rfl
  · intro hstat
    obtain ⟨tasks2, hupd⟩ :=
      update_task_exists_of_get (cancel_update now) task_id s.tasks t hget
    have hget2 : get_task tasks2 task_id = some (cancel_update now t) := by
      rw [get_task_update_self (cancel_update now) (fun u => rfl) task_id s.tasks
        tasks2 hupd, hget]
      rfl
    have hc : ¬ (t.status ≠ TaskStatus.Running ∧ t.status ≠ TaskStatus.Paused ∧
        t.status ≠ TaskStatus.Pending) := by
      rintro ⟨hc1, hc2, hc3⟩
      rcases hstat with h1 | h1 | h1
      · exact hc3 h1
      · exact hc1 h1
      · exact hc2 h1
    simp only [cancel_task, hget]
    rw [if_neg hc]
    simp only [hupd]
    rw [if_neg (by decide : ¬ ((false : Bool) = true))]
    refine ⟨?_, rfl⟩
    show (get_task tasks2 task_id).map Task.status = some TaskStatus.Canceled
    rw [hget2]
    rfl

/-- A state holding one Running task. -/
def state_one_running : TaskManagerState :=
  { tasks := [sample_task "a" TaskStatus.Running], queue := [],
    max_concurrent_tasks := 2, is_queue_paused := false }

/-- Witness for C9: the failing-save pause and cancel at a concrete
Running task. -/
theorem c9_store_save_failure_witness :
    (get_task (pause_task state_one_running "a" false).1.tasks "a").map Task.status =
      some TaskStatus.Paused ∧
    (get_task (cancel_task state_one_running "a" "t3" false).1.tasks "a").map Task.status =
      some TaskStatus.Canceled := by
  obtain ⟨h1, h2⟩ := c9_store_save_failure_no_rollback state_one_running "a" "t3"
    (sample_task "a" TaskStatus.Running) (by decide)
  exact ⟨(h1 rfl).1, (h2 (Or.inr (Or.inl rfl))).1⟩

/-! Facts about the tail of retry_task, shared by the claims about it. -/

lemma start_task_queue_eq (s : TaskManagerState) (task_id now : String) (save_ok : Bool) :
    (start_task s task_id now save_ok).1.queue = s.queue := by
  unfold start_task
  split
  · rfl
  · split
    · rfl
    · split
      · rfl
      · split
        · rfl
        · rfl

lemma retry_dispatch_queue_eq (s : TaskManagerState) (task_id now : String)
    (save_ok : Bool) :
    (retry_dispatch s task_id now save_ok).1.queue = s.queue := by
  unfold retry_dispatch
  split
  · split
    · exact start_task_queue_eq s task_id now save_ok
    · rfl
  · rfl

lemma enqueue_if_absent_queue (s : TaskManagerState) (task_id : String) :
    (enqueue_if_absent s task_id).queue =
      if task_id ∈ s.queue then s.queue else s.queue ++ [task_id] := by
  unfold enqueue_if_absent
  by_cases hmem : task_id ∈ s.queue
  · rw [if_pos (by simpa using hmem), if_pos hmem]
  · rw [if_neg (by simpa using hmem), if_neg hmem]

lemma enqueue_if_absent_tasks (s : TaskManagerState) (task_id : String) :
    (enqueue_if_absent s task_id).tasks = s.tasks := by
  unfold enqueue_if_absent
  split
  · rfl
  · rfl

lemma enqueue_if_absent_paused (s : TaskManagerState) (task_id : String) :
    (enqueue_if_absent s task_id).is_queue_paused = s.is_queue_paused := by
  unfold enqueue_if_absent
  split
  · rfl
  · rfl

lemma enqueue_if_absent_max (s : TaskManagerState) (task_id : String) :
    (enqueue_if_absent s task_id).max_concurrent_tasks = s.max_concurrent_tasks := by
  unfold enqueue_if_absent
  split
  · rfl
  · rfl

lemma retry_task_eq_dispatch (s : TaskManagerState) (task_id now : String) (t : Task)
    (tasks2 : List Task) (hget : get_task s.tasks task_id = some t)
    (hst : t.status = TaskStatus.Failed ∨ t.status = TaskStatus.Canceled)
    (hupd : update_task retry_update task_id s.tasks = some tasks2) :
    retry_task s task_id now true =
      retry_dispatch (enqueue_if_absent { s with tasks := tasks2 } task_id)
        task_id now true := by
  have hguard : ¬ (t.status ≠ TaskStatus.Failed ∧ t.status ≠ TaskStatus.Canceled) := by
    rintro ⟨h1, h2⟩
    rcases hst with h | h
    · exact h1 h
    · exact h2 h
  simp only [retry_task, hget]
  rw [if_neg hguard]
  simp only [hupd]
  rw [if_pos trivial]

lemma retry_task_queue_eq (s : TaskManagerState) (task_id now : String) (t : Task)
    (hget : get_task s.tasks task_id = some t)
    (hst : t.status = TaskStatus.Failed ∨ t.status = TaskStatus.Canceled) :
    (retry_task s task_id now true).1.queue =
      if task_id ∈ s.queue then s.queue else s.queue ++ [task_id] := by
  obtain ⟨tasks2, hupd⟩ := update_task_exists_of_get retry_update task_id s.tasks t hget
  rw [retry_task_eq_dispatch s task_id now t tasks2 hget hst hupd,
    retry_dispatch_queue_eq, enqueue_if_absent_queue]

/-- C6 (amended): retry_task on a Failed or Canceled task succeeds,
resets its progress to 0, clears error and completed_at, appends its id
to the Queue tail only when not already present (existing entries keep
their position), and then, when the queue is not paused and the Running
count is below the limit, immediately starts the task: its final status
is Running with started_at stamped and attempts incremented, not Pending.
retry_task on any other status fails with InvalidStatus and mutates
nothing (established with claim C4). -/
theorem c6_retry_amended (s : TaskManagerState) (task_id now : String) (t : Task)
    (hget : get_task s.tasks task_id = some t)
    (hst : t.status = TaskStatus.Failed ∨ t.status = TaskStatus.Canceled) :
    (retry_task s task_id now true).1.queue =
      (if task_id ∈ s.queue then s.queue else s.queue ++ [task_id]) ∧
    (retry_task s task_id now true).2 = Except.ok () ∧
    ∃ t2, get_task (retry_task s task_id now true).1.tasks task_id = some t2 ∧
      t2.progress = 0 ∧ t2.error = none ∧ t2.completed_at = none ∧
      (if ¬ s.is_queue_paused ∧ running_count s.tasks < s.max_concurrent_tasks then
        t2.status = TaskStatus.Running ∧ t2.started_at = some now ∧
          t2.attempts = t.attempts + 1
       else
        t2.status = TaskStatus.Pending ∧ t2.started_at = t.started_at ∧
          t2.attempts = t.attempts) := by
  obtain ⟨tasks2, hupd⟩ := update_task_exists_of_get retry_update task_id s.tasks t hget
  have hget2 : get_task tasks2 task_id = some (retry_update t) := by
    rw [get_task_update_self retry_update (fun u => rfl) task_id s.tasks tasks2 hupd,
      hget]
    rfl
  have htnr : t.status ≠ TaskStatus.Running := by
    rcases hst with h | h <;> rw [h] <;> decide
  have hrc : running_count tasks2 = running_count s.tasks :=
    running_count_update_eq retry_update (fun u => by simp [retry_update]) task_id t
      htnr s.tasks tasks2 hget hupd
  have hqueue := retry_task_queue_eq s task_id now t hget hst
  rw [retry_task_eq_dispatch s task_id now t tasks2 hget hst hupd] at hqueue ⊢
  have hp3 : (enqueue_if_absent { s with tasks := tasks2 } task_id).is_queue_paused =
      s.is_queue_paused := enqueue_if_absent_paused _ _
  have hm3 : (enqueue_if_absent { s with tasks := tasks2 } task_id).max_concurrent_tasks =
      s.max_concurrent_tasks := enqueue_if_absent_max _ _
  have ht3 : (enqueue_if_absent { s with tasks := tasks2 } task_id).tasks = tasks2 :=
    enqueue_if_absent_tasks _ _
  have hgs3 : get_task (enqueue_if_absent { s with tasks := tasks2 } task_id).tasks
      task_id = some (retry_update t) := by
    rw [ht3]
    exact hget2
  by_cases hcond : ¬ s.is_queue_paused ∧
      running_count s.tasks < s.max_concurrent_tasks
  · obtain ⟨tasks3, hupd3⟩ := update_task_exists_of_get (start_update now) task_id
      (enqueue_if_absent { s with tasks := tasks2 } task_id).tasks (retry_update t) hgs3
    have hget3 : get_task tasks3 task_id =
        some (start_update now (retry_update t)) := by
      rw [get_task_update_self (start_update now) (fun u => rfl) task_id _ tasks3 hupd3,
        hgs3]
      rfl
    have hstart : start_task (enqueue_if_absent { s with tasks := tasks2 } task_id)
        task_id now true =
        ({ enqueue_if_absent { s with tasks := tasks2 } task_id with tasks := tasks3 },
          Except.ok ()) := by
      simp only [start_task, hgs3]
      rw [if_neg (not_not_intro
        (show (retry_update t).status = TaskStatus.Pending from rfl))]
      simp only [hupd3]
      rw [if_pos trivial]
    have hdisp : retry_dispatch (enqueue_if_absent { s with tasks := tasks2 } task_id)
        task_id now true =
        ({ enqueue_if_absent { s with tasks := tasks2 } task_id with tasks := tasks3 },
          Except.ok ()) := by
      unfold retry_dispatch
      rw [if_pos (by rw [hp3]; exact hcond.1),
        if_pos (by rw [ht3, hrc, hm3]; exact hcond.2), hstart]
    rw [hdisp] at hqueue ⊢
    refine ⟨hqueue, rfl, start_update now (retry_update t), ?_, rfl, rfl, rfl, ?_⟩
    · exact hget3
    · rw [if_pos hcond]
      exact ⟨rfl, rfl, rfl⟩
  · have hdisp : retry_dispatch (enqueue_if_absent { s with tasks := tasks2 } task_id)
        task_id now true =
        (enqueue_if_absent { s with tasks := tasks2 } task_id, Except.ok ()) := by
      unfold retry_dispatch
      by_cases hp : s.is_queue_paused
      · rw [if_neg (not_not_intro (by rw [hp3]; exact hp))]
      · have hnlt : ¬ running_count s.tasks < s.max_concurrent_tasks := by
          intro hlt
          exact hcond ⟨hp, hlt⟩
        rw [if_pos (by rw [hp3]; exact hp), if_neg (by rw [ht3, hrc, hm3]; exact hnlt)]
    rw [hdisp] at hqueue ⊢
    refine ⟨hqueue, rfl, retry_update t, hgs3, rfl, rfl, rfl, ?_⟩
    rw [if_neg hcond]
    exact ⟨rfl, rfl, rfl⟩

/-- Reachable state in which task a is Canceled while its id sits at the
head of the queue: create a, create b, cancel a, reorder to a, b. -/
def state_canceled_in_queue : TaskManagerState :=
  (reorder_tasks (cancel_task (create_task state_a_created "b" "in.mp4" "out.mp4"
    "convert" [] "t0").1 "a" "t1" true).1 ["a", "b"] true).1

/-- C6: counterexample to the claim as stated.  Retrying the Canceled
task a (whose id is still queued, at the head) leaves the queue unchanged
instead of re-enqueueing at the tail, and because a slot is free the task
is immediately started: its status after retry_task is Running, not
Pending. -/
theorem c6_retry_autostart_cex :
    Reachable state_canceled_in_queue ∧
    (get_task (retry_task state_canceled_in_queue "a" "t9" true).1.tasks "a").map
      Task.status = some TaskStatus.Running ∧
    (retry_task state_canceled_in_queue "a" "t9" true).1.queue = ["a", "b"] := by
  refine ⟨?_, by decide, by decide⟩
  exact Reachable.step (Reachable.step (Reachable.step (Reachable.step
    (Reachable.init 2)
    (Step.create (new_task_manager 2) "a" "in.mp4" "out.mp4" "convert" [] "t0"))
    (Step.create state_a_created "b" "in.mp4" "out.mp4" "convert" [] "t0"))
    (Step.cancel (create_task state_a_created "b" "in.mp4" "out.mp4" "convert" []
      "t0").1 "a" "t1" true))
    (Step.reorder (cancel_task (create_task state_a_created "b" "in.mp4" "out.mp4"
      "convert" [] "t0").1 "a" "t1" true).1 ["a", "b"] true)

/-- A state holding one Failed task with an empty queue and a free slot. -/
def state_one_failed : TaskManagerState :=
  { tasks := [sample_task "a" TaskStatus.Failed], queue := [],
    max_concurrent_tasks := 1, is_queue_paused := false }

/-- Witness for C6: the amended description applied to a concrete Failed
task. -/
theorem c6_retry_amended_witness :
    (retry_task state_one_failed "a" "t5" true).1.queue =
      (if "a" ∈ state_one_failed.queue then state_one_failed.queue
       else state_one_failed.queue ++ ["a"]) ∧
    (retry_task state_one_failed "a" "t5" true).2 = Except.ok () := by
  have h := c6_retry_amended state_one_failed "a" "t5"
    (sample_task "a" TaskStatus.Failed) (by decide) (Or.inl rfl)
  exact ⟨h.1, h.2.1⟩

/-- C10 (amended): a successful retry leaves the Queue unchanged when the
id is already present and appends it exactly once otherwise, so
retry_task never increases any id's occurrence count beyond one: if every
id occurred at most once before the retry, every id occurs at most once
after it.  (The unconditional at-most-once conclusion of the claim fails
when the Queue already held duplicates, which reorder_tasks permits.) -/
theorem c10_retry_no_new_duplicate (s : TaskManagerState) (task_id now : String)
    (t : Task) (hget : get_task s.tasks task_id = some t)
    (hst : t.status = TaskStatus.Failed ∨ t.status = TaskStatus.Canceled) :
    (task_id ∈ s.queue → (retry_task s task_id now true).1.queue = s.queue) ∧
    (∀ j : String, s.queue.count j ≤ 1 →
      (retry_task s task_id now true).1.queue.count j ≤ 1) := by
  have hq := retry_task_queue_eq s task_id now t hget hst
  constructor
  · intro hmem
    rw [hq, if_pos hmem]
  · intro j hcount
    rw [hq]
    by_cases hmem : task_id ∈ s.queue
    · rw [if_pos hmem]
      exact hcount
    · rw [if_neg hmem, List.count_append]
      by_cases hje : j = task_id
      · subst hje
        have hzero : s.queue.count j = 0 := List.count_eq_zero.mpr hmem
        rw [hzero]
        simp
      · have hzero : List.count j [task_id] = 0 := by
          simp [List.count_singleton', hje]
        rw [hzero]
        omega

/-- A state holding one Failed task whose id is already queued. -/
def state_failed_queued : TaskManagerState :=
  { tasks := [sample_task "a" TaskStatus.Failed], queue := ["a"],
    max_concurrent_tasks := 0, is_queue_paused := false }

/-- Witness for C10: retrying a Failed task already in the queue leaves
the queue unchanged and without duplicates. -/
theorem c10_retry_no_new_duplicate_witness :
    (retry_task state_failed_queued "a" "t5" true).1.queue =
      state_failed_queued.queue ∧
    (retry_task state_failed_queued "a" "t5" true).1.queue.count "a" ≤ 1 := by
  have h := c10_retry_no_new_duplicate state_failed_queued "a" "t5"
    (sample_task "a" TaskStatus.Failed) (by decide) (Or.inl rfl)
  exact ⟨h.1 (by decide), h.2 "a" (by decide)⟩

/-- Reachable state whose queue holds the id of the Canceled task a
twice: create a (limit 0), cancel a, reorder to a, a. -/
def state_dup_queue : TaskManagerState :=
  (reorder_tasks (cancel_task (create_task (new_task_manager 0) "a" "in.mp4"
    "out.mp4" "convert" [] "t0").1 "a" "t1" true).1 ["a", "a"] true).1

/-- C10: counterexample to the unconditional conclusion.  The queue
already holds a twice (reorder_tasks accepts duplicates); the successful
retry leaves it unchanged, so the id occurs twice after retry_task. -/
theorem c10_preexisting_duplicate_cex :
    Reachable state_dup_queue ∧
    (retry_task state_dup_queue "a" "t2" true).2 = Except.ok () ∧
    (retry_task state_dup_queue "a" "t2" true).1.queue.count "a" = 2 := by
  refine ⟨?_, by decide, by decide⟩
  exact Reachable.step (Reachable.step (Reachable.step (Reachable.init 0)
    (Step.create (new_task_manager 0) "a" "in.mp4" "out.mp4" "convert" [] "t0"))
    (Step.cancel (create_task (new_task_manager 0) "a" "in.mp4" "out.mp4" "convert"
      [] "t0").1 "a" "t1" true))
    (Step.reorder (cancel_task (create_task (new_task_manager 0) "a" "in.mp4"
      "out.mp4" "convert" [] "t0").1 "a" "t1" true).1 ["a", "a"] true)

end VidKit
